import Mathlib

/-!
Shallow embedding of the loggers-sim-logbook event-interpretation engine
(src/backend/xml_parser.py, src/backend/validation.py,
src/backendOld/nickname_matcher.py) and proofs about the claims of the
natural-language specification.

Strings are modelled as Lean `String`; character-level operations work on
`String.data : List Char`.  Python's `str.lower`, `\w`, `\s` and the
validation character classes are modelled for the ASCII range, which covers
every string occurring in the configuration tables and in the claims.
Python floats are modelled by exact rationals (`ℚ`); the single float
comparison in the engine (`sqrt(d) * 111000 < 100`) is modelled by the
equivalent squared comparison.
-/

set_option maxRecDepth 10000
set_option linter.unusedVariables false

namespace Loggers

/-- ASCII lower-casing, modelling Python `str.lower` on the ASCII range. -/
def ascii_lower (c : Char) : Char :=
  if 65 ≤ c.toNat ∧ c.toNat ≤ 90 then Char.ofNat (c.toNat + 32) else c

/-- Lower-case every character of a string (Python `s.lower()`). -/
def lower_str (s : String) : String :=
  String.mk (s.data.map ascii_lower)

/-- Python whitespace for `str.strip` and the regex class `\s` (ASCII). -/
def is_py_space (c : Char) : Bool :=
  c == ' ' || c == '\t' || c == '\n' || c == '\x0d' || c == '\x0b' || c == '\x0c'

/-- Strip leading and trailing whitespace (Python `str.strip()`). -/
def py_strip_list (l : List Char) : List Char :=
  ((l.dropWhile is_py_space).reverse.dropWhile is_py_space).reverse

/-- String version of `py_strip_list`. -/
def py_strip (s : String) : String :=
  String.mk (py_strip_list s.data)

/-- Does `needle` occur as a contiguous sublist of `hay`?  Models Python
`needle in hay` for strings. -/
def substr_in (needle : List Char) : List Char → Bool
  | [] => needle.isEmpty
  | c :: t => needle.isPrefixOf (c :: t) || substr_in needle t

/-- Python `needle in hay` on strings. -/
def contains_sub (hay needle : String) : Bool :=
  substr_in needle.data hay.data

/-- Python regex `\w` membership (ASCII): letters, digits, underscore. -/
def is_word_char (c : Char) : Bool :=
  c.isAlphanum || c == '_'

/-- Split a character list on a non-empty separator sequence, modelling
Python `str.split(sep)`.  The first argument is fuel (the input length
suffices because every step consumes at least one character). -/
def split_seq_aux (sep : List Char) : Nat → List Char → List (List Char)
  | _, [] => [[]]
  | 0, l => [l]
  | fuel + 1, x :: t =>
    if sep.isPrefixOf (x :: t) then
      match split_seq_aux sep fuel ((x :: t).drop sep.length) with
      | [] => [[]]
      | r => [] :: r
    else
      match split_seq_aux sep fuel t with
      | [] => [[]]
      | h :: r => (x :: h) :: r

/-- Python `s.split(sep)` for a non-empty separator. -/
def py_split (sep : String) (s : String) : List String :=
  (split_seq_aux sep.data s.data.length s.data).map String.mk

/-! ### Identity Resolver (src/backendOld/nickname_matcher.py) -/

/-- Source `normalize_name`: `re.sub(r"[^\w]", "", name).lower()` — drop all
non-word characters, then lower-case. -/
def normalize_name (s : String) : String :=
  String.mk ((s.data.filter is_word_char).map ascii_lower)

/-- Source `resolve_fuzzy_nickname`: walk the alias table in insertion
order; the first identity all of whose fragments occur in the normalized
label wins; otherwise return the normalized label itself.  The alias table
is passed explicitly (the Python default argument loads it from config). -/
def resolve_fuzzy_nickname (raw : String) : List (String × List String) → String
  | [] => normalize_name raw
  | (nick, frags) :: t =>
    if frags.all (fun f => substr_in f.data (normalize_name raw).data) then nick
    else resolve_fuzzy_nickname raw t

/-! ### Validation helpers (src/backend/validation.py) -/

/-- Character class of `PILOT_NAME_PATTERN`, the regex
`[a-zA-Z0-9\s\-_|\.]` (ASCII). -/
def is_pilot_char (c : Char) : Bool :=
  c.isAlphanum || is_py_space c || c == '-' || c == '_' || c == '|' || c == '.'

/-- Source `validate_pilot_name`: non-empty, at most 100 characters, and
every character in the pilot-name class.  Returns the boolean component of
the Python `(is_valid, error)` pair. -/
def validate_pilot_name (s : String) : Bool :=
  !s.data.isEmpty && s.data.length ≤ 100 && s.data.all is_pilot_char

/-- Character class of `AIRCRAFT_PATTERN`, the regex
`[a-zA-Z0-9\s\-_\.\/]` (ASCII). -/
def is_aircraft_char (c : Char) : Bool :=
  c.isAlphanum || is_py_space c || c == '-' || c == '_' || c == '.' || c == '/'

/-- Source `validate_aircraft_name`: non-empty, at most 100 characters,
every character in the aircraft class (the whitelist check only logs). -/
def validate_aircraft_name (s : String) : Bool :=
  !s.data.isEmpty && s.data.length ≤ 100 && s.data.all is_aircraft_char

/-- Character class of `MISSION_NAME_PATTERN`, the regex
`[a-zA-Z0-9\s\-_\.]` (ASCII). -/
def is_mission_char (c : Char) : Bool :=
  c.isAlphanum || is_py_space c || c == '-' || c == '_' || c == '.'

/-- Source `validate_mission_name`: non-empty, at most 200 characters,
every character in the mission-name class. -/
def validate_mission_name (s : String) : Bool :=
  !s.data.isEmpty && s.data.length ≤ 200 && s.data.all is_mission_char

/-- Source `validate_platform`: membership in `VALID_PLATFORMS`. -/
def validate_platform (s : String) : Bool :=
  s == "DCS" || s == "BMS" || s == "IL2"

/-- Characters removed by `sanitize_string`: the control ranges
`\x00-\x08`, `\x0B`, `\x0C`, `\x0E-\x1F`, `\x7F`, and the two newline
characters.  Tab (`\x09`) is kept, exactly as in the source regex. -/
def is_sanitize_removed (c : Char) : Bool :=
  c.toNat ≤ 8 || c.toNat == 0x0b || c.toNat == 0x0c ||
  (0x0e ≤ c.toNat && c.toNat ≤ 0x1f) || c.toNat == 0x7f ||
  c == '\n' || c == '\x0d'

/-- Source `sanitize_string`: remove control characters, truncate to
`maxLen`, then strip surrounding whitespace. -/
def sanitize_string (s : String) (maxLen : Nat) : String :=
  String.mk (py_strip_list ((s.data.filter (fun c => !is_sanitize_removed c)).take maxLen))

/-! ### Combatant Classifier (src/backend/xml_parser.py, `is_player_client`) -/

/-- One entry of `config/profiles.json`: a canonical callsign and aliases. -/
structure Profile where
  callsign : String
  aliases : List String
deriving DecidableEq, Repr

/-- Source `is_known_player`: exact case-insensitive match on the callsign
or any alias of a profile.  The profile list is passed explicitly (the
Python reads it from `config/profiles.json`). -/
def is_known_player (profiles : List Profile) (pilotName : String) : Bool :=
  if pilotName.data.isEmpty then false
  else profiles.any (fun p =>
    lower_str p.callsign == lower_str pilotName ||
    p.aliases.any (fun a => lower_str a == lower_str pilotName))

/-- The `player_aircraft` allow-list of `is_player_client`, transcribed
verbatim from the source. -/
def player_aircraft : List String :=
  ["DCS: F4U-1D Corsair", "DCS: F-5E Remastered", "DCS: Flaming Cliffs 2024",
   "DCS: F-4E Phantom II", "DCS: F-15E", "DCS: MB-339", "DCS: Mirage F1",
   "DCS: Mosquito FB VI", "DCS: A-10C II Tank Killer", "DCS: P-47D Thunderbolt",
   "DCS: JF-17 Thunder", "DCS: F-16C Viper", "DCS: Fw 190 A-8", "DCS: I-16",
   "DCS: MiG-19P Farmer", "DCS: Christen Eagle II", "DCS: F-14 Tomcat",
   "DCS: Yak-52", "DCS: F/A-18C", "DCS: AV-8B Night Attack V/STOL",
   "DCS: AJS-37 Viggen", "DCS: Spitfire LF Mk. IX", "DCS: F-5E", "DCS: M-2000C",
   "DCS: L-39 Albatros", "DCS: C-101 Aviojet", "DCS: Bf 109 K-4 Kurfürst",
   "DCS: MiG-21bis", "DCS: Fw 190 D-9 Dora", "DCS: P-51D Mustang",
   "DCS: A-10C Warthog", "A-4 Skyhawk", "A-4E",
   "DCS: UH-1H Huey", "DCS: Mi-8MT Hip", "DCS: Ka-50 Black Shark",
   "DCS: SA342 Gazelle", "DCS: Mi-24P Hind", "DCS: AH-64D Apache",
   "DCS: OH-58D Kiowa Warrior", "DCS: AH-64E Apache", "DCS: Mi-28N Havoc",
   "DCS: Ka-50-3 Black Shark", "DCS: CH-47F Chinook", "DCS: UH-60L Black Hawk",
   "DCS: Mi-17 Hip", "DCS: AH-1W Super Cobra", "DCS: AH-1Z Viper",
   "DCS: UH-1Y Venom", "DCS: Mi-26 Halo", "DCS: Ka-27 Helix", "DCS: Ka-29 Helix",
   "DCS: Mi-35M Hind", "DCS: Mi-28 Havoc", "DCS: AH-6J Little Bird",
   "DCS: OH-6A Cayuse", "DCS: UH-1N Twin Huey", "DCS: CH-53E Super Stallion",
   "DCS: CH-46 Sea Knight", "DCS: V-22 Osprey", "DCS: Mi-8", "DCS: Ka-50",
   "DCS: AH-64", "DCS: UH-1", "DCS: Mi-24", "DCS: SA342", "DCS: OH-58D",
   "DCS: CH-47", "DCS: UH-60", "DCS: Mi-17", "DCS: AH-1", "DCS: Mi-26",
   "DCS: Ka-27", "DCS: Mi-35", "DCS: AH-6", "DCS: OH-6", "DCS: CH-53",
   "DCS: CH-46", "DCS: V-22",
   "MiG-15bis", "F-5E Flaming Cliffs", "F-86F Flaming Cliffs",
   "MiG-29 Flaming Cliffs", "Su-33 Flaming Cliffs", "Su-27 Flaming Cliffs",
   "F-15C Flaming Cliffs", "Su-25 Flaming Cliffs", "A-10A Flaming Cliffs",
   "F-86F Sabre",
   "F-4E Phantom", "F-15E Strike Eagle", "F-16C", "F/A-18C Hornet", "AV-8B",
   "A-10C", "P-51D", "MiG-21", "MiG-29", "Su-27", "Su-33", "F-15C", "Su-25",
   "A-10A", "F-5E", "F-86F", "MiG-15", "Fw 190", "Bf 109", "Spitfire",
   "Mosquito", "Corsair", "Thunderbolt", "Mustang", "Viggen", "Mirage F1",
   "M-2000C", "L-39", "C-101", "Yak-52", "Christen Eagle", "JF-17", "I-16",
   "MiG-19", "Fw 190 A-8", "Fw 190 D-9", "Bf 109 K-4", "MB-339", "AJS-37",
   "AV-8B Night Attack", "A-4 Skyhawk", "A-4E Skyhawk",
   "Huey", "Hip", "Black Shark", "Gazelle", "Hind", "Apache", "Kiowa", "Havoc",
   "Chinook", "Black Hawk", "Super Cobra", "Viper", "Venom", "Halo", "Helix",
   "Little Bird", "Cayuse", "Twin Huey", "Super Stallion", "Sea Knight",
   "Osprey"]

/-- Per-callsign body of the roster loop inside `is_player_client`: direct
bidirectional substring match on lower-cased names, plus the
`flight | personal` and `flight - personal` compound split checks. -/
def callsign_matches (pilotName cs : String) : Bool :=
  let cl := lower_str cs
  let pl := lower_str pilotName
  (contains_sub pl cl || contains_sub cl pl) ||
  (contains_sub pilotName "|" &&
    (match py_split "|" pilotName with
     | [a, b] =>
       contains_sub (lower_str (py_strip a)) cl ||
       contains_sub (lower_str (py_strip b)) cl
     | _ => false)) ||
  (contains_sub pilotName " - " &&
    (match py_split " - " pilotName with
     | [a, b] =>
       contains_sub (lower_str (py_strip a)) cl ||
       contains_sub (lower_str (py_strip b)) cl
     | _ => false))

/-- Source `is_player_client`.  The player-profile list and the squadron
callsign roster are passed explicitly (the Python reads them from config
files).  Note that the `group` parameter is accepted, as in the source, but
never used by the body. -/
def is_player_client (profiles : List Profile) (callsigns : List String)
    (pilotName aircraftName group : String) : Bool :=
  if pilotName.data.isEmpty || lower_str pilotName == "unknown" then false
  else if is_known_player profiles pilotName then true
  else
    let aLower := lower_str aircraftName
    let allowed := player_aircraft.any (fun a =>
      contains_sub aLower (lower_str a) || contains_sub (lower_str a) aLower)
    if !allowed then false
    else if callsigns.isEmpty then true
    else callsigns.any (fun cs => callsign_matches pilotName cs)

/-! ### Data model of the Event Interpreter (src/backend/xml_parser.py) -/

/-- One time-stamped position sample of a pilot trace. -/
structure Pos where
  lat : ℚ
  lon : ℚ
  time : ℚ
deriving DecidableEq, Repr

/-- An entity attached to an event (`PrimaryObject` / `SecondaryObject`),
with the `findtext` defaults already applied: `Pilot` defaults to `""`,
`Name` to `"Unknown"`, `Group`, `Type` and `Coalition` to `""`. -/
structure Entity where
  pilot : String
  name : String
  group : String
  typ : String
  coalition : String
deriving DecidableEq, Repr

/-- A structured event as read from the document.  `action` is the `Action`
text (absent element gives `none`); `loc` is the latitude/longitude of a
present, numerically parseable `Location` element; `time` is the parsed
`Time` element. -/
structure Event where
  action : Option String
  primary : Option Entity
  secondary : Option Entity
  loc : Option (ℚ × ℚ)
  time : Option ℚ
deriving DecidableEq, Repr

/-- The per-identity mission accumulator, one entry of `pilot_missions`.
Fields mirror the Python dict created by the `defaultdict` factory; the
list-valued diagnostic fields `flight_times` and `stationary_periods` are
never read or written by the engine and are omitted. -/
structure PilotRec where
  date : String
  mission : String
  flight_minutes : Nat
  aa_kills : Nat
  ag_kills : Nat
  frat_kills : Nat
  rtb : Nat
  res : Nat
  mia : Nat
  kia : Nat
  ctd : Nat
  platform : String
  aircraft : String
  ejections : Nat
  deaths : Nat
  sorties : Nat
  total_kills : Nat
  kd : String
  nicknames : List String
deriving DecidableEq, Repr

/-- `pilot_missions`, an insertion-ordered map (Python dict). -/
abbrev PM := List (String × PilotRec)

/-- `pilot_positions`, an insertion-ordered map of position traces. -/
abbrev PP := List (String × List Pos)

/-- The record produced by the `defaultdict` factory of
`parse_tacview_xml`: `flight_minutes` is seeded from the mission duration,
`sorties` starts at 1, `kd_ratio` at `"N/A"`, `aircraft` at `"Unknown"`. -/
def default_rec (missionDate missionName : String) (durationSec : Nat)
    (platformTag : String) : PilotRec :=
  { date := missionDate, mission := missionName,
    flight_minutes := durationSec / 60,
    aa_kills := 0, ag_kills := 0, frat_kills := 0, rtb := 0, res := 0,
    mia := 0, kia := 0, ctd := 0, platform := platformTag,
    aircraft := "Unknown", ejections := 0, deaths := 0, sorties := 1,
    total_kills := 0, kd := "N/A", nicknames := [] }

/-- First-match lookup in `pilot_missions` (Python dict indexing). -/
def lookup_rec (pm : PM) (k : String) : Option PilotRec :=
  (pm.find? (fun e => e.1 == k)).map (fun e => e.2)

/-- Mutate `pilot_missions[k]` through `f`, creating the entry with the
`defaultdict` factory value when absent (new keys go to the end, matching
Python dict insertion order). -/
def update_rec (dflt : PilotRec) (k : String) (f : PilotRec → PilotRec) : PM → PM
  | [] => [(k, f dflt)]
  | e :: t => if e.1 == k then (e.1, f e.2) :: t else e :: update_rec dflt k f t

/-- Mutate an existing entry only (used where the source guards membership). -/
def set_existing (k : String) (f : PilotRec → PilotRec) : PM → PM
  | [] => []
  | e :: t => if e.1 == k then (e.1, f e.2) :: t else e :: set_existing k f t

/-- `pilot_positions[k].append p` with `defaultdict(list)` semantics. -/
def append_pos (k : String) (p : Pos) : PP → PP
  | [] => [(k, [p])]
  | e :: t => if e.1 == k then (e.1, e.2 ++ [p]) :: t else e :: append_pos k p t

/-- The fixed `ground_types` set defined inside `parse_tacview_xml`. -/
def ground_types : List String :=
  ["Infantry", "SAM/AAA", "Vehicle", "Tank", "Artillery", "Ship", "Boat",
   "Structure", "Ground"]

/-- Configuration side-tables read by the engine: the player profiles, the
squadron-callsign roster, and the nickname alias table. -/
structure Config where
  profiles : List Profile
  callsigns : List String
  fragments : List (String × List String)
deriving Repr

/-- Primary-side record updates of an accepted event: remember the raw
label as a nickname (idempotently), set the last-seen aircraft, and append
a position sample when `Location` is present with non-empty coordinates and
a non-zero `Time` (Python truthiness of `time_val`). -/
def record_primary (dflt : PilotRec) (nickname pilot aircraft : String)
    (ev : Event) (st : PM × PP) : PM × PP :=
  let pm := update_rec dflt nickname
    (fun r => if r.nicknames.contains pilot then r
              else { r with nicknames := r.nicknames ++ [pilot] }) st.1
  let pm := update_rec dflt nickname (fun r => { r with aircraft := aircraft }) pm
  let pp :=
    match ev.loc with
    | none => st.2
    | some (la, lo) =>
      let t := ev.time.getD 0
      if t ≠ 0 then append_pos nickname ⟨la, lo, t⟩ st.2 else st.2
  (pm, pp)

/-- Action dispatch of `process_event`, applied after the primary-side gate
and updates.  `p` is the primary entity, `aircraft` the validated/sanitized
primary aircraft label passed to the attacker classification call. -/
def apply_action (cfg : Config) (dflt : PilotRec) (ev : Event) (p : Entity)
    (pilot aircraft nickname : String) (st : PM × PP) : PM × PP :=
  if ev.action == some "HasBeenDestroyed" then
    match ev.secondary with
    | some s =>
      let attacker := py_strip s.pilot
      if !attacker.data.isEmpty && lower_str attacker != "unknown" &&
          is_player_client cfg.profiles cfg.callsigns attacker aircraft p.group then
        let an := resolve_fuzzy_nickname attacker cfg.fragments
        if p.coalition == s.coalition && !p.coalition.data.isEmpty then
          (update_rec dflt an (fun r => { r with frat_kills := r.frat_kills + 1 }) st.1, st.2)
        else if ground_types.contains p.typ then
          (update_rec dflt an (fun r => { r with ag_kills := r.ag_kills + 1 }) st.1, st.2)
        else
          (update_rec dflt an (fun r => { r with aa_kills := r.aa_kills + 1 }) st.1, st.2)
      else st
    | none =>
      let vn := resolve_fuzzy_nickname pilot cfg.fragments
      (update_rec dflt vn (fun r => { r with kia := r.kia + 1, deaths := r.deaths + 1 }) st.1, st.2)
  else if ev.action == some "HasLanded" then
    (update_rec dflt nickname (fun r => { r with rtb := r.rtb + 1 }) st.1, st.2)
  else if ev.action == some "HasEjected" then
    (update_rec dflt nickname (fun r => { r with ejections := r.ejections + 1 }) st.1, st.2)
  else st

/-- Source `process_event`: the primary gates (non-empty, not "unknown",
valid, sanitized, classified as a player client, nickname valid), then the
primary-side updates, then the action dispatch. -/
def process_event (cfg : Config) (dflt : PilotRec) (ev : Event) (st : PM × PP) : PM × PP :=
  match ev.primary with
  | none => st
  | some p =>
    let pilot0 := py_strip p.pilot
    if pilot0.data.isEmpty || lower_str pilot0 == "unknown" then st
    else if !validate_pilot_name pilot0 then st
    else
      let pilot := sanitize_string pilot0 100
      let aircraft0 := if validate_aircraft_name p.name then p.name else "Unknown"
      let aircraft := sanitize_string aircraft0 100
      if !is_player_client cfg.profiles cfg.callsigns pilot aircraft p.group then st
      else
        let nickname := resolve_fuzzy_nickname pilot cfg.fragments
        if !validate_pilot_name nickname then st
        else
          apply_action cfg dflt ev p pilot aircraft nickname
            (record_primary dflt nickname pilot aircraft ev st)

/-! ### Flight-Time Estimator (src/backend/xml_parser.py,
`calculate_actual_flight_hours` and `calculate_distance`) -/

/-- Does `calculate_distance` fall below the 100-metre movement threshold?
The source computes `sqrt(dlat^2 + dlon^2) * 111000 < 100` on floats; both
sides are non-negative, so this is equivalent to the squared comparison on
exact rationals. -/
def dist_lt_100 (a b : Pos) : Bool :=
  decide (((b.lat - a.lat) * (b.lat - a.lat) +
           (b.lon - a.lon) * (b.lon - a.lon)) * (111000 * 111000) < (10000 : ℚ))

/-- Stable insertion of a sample into a time-sorted trace (earlier list
elements stay in front of equal-time later ones, as in Python's stable
sort). -/
def insert_pos (p : Pos) : List Pos → List Pos
  | [] => [p]
  | q :: t => if p.time ≤ q.time then p :: q :: t else q :: insert_pos p t

/-- Sort a trace by time (`positions.sort(key=lambda x: x['time'])`). -/
def sort_by_time : List Pos → List Pos
  | [] => []
  | p :: t => insert_pos p (sort_by_time t)

/-- The accumulation loop of `calculate_actual_flight_hours`, carrying
`last_position`, `stationary_start` and `total_flight_time`.  The
over-threshold stationary branch is the Python `continue`: it skips both
the accumulation and the `last_position` update. -/
def flight_loop : List Pos → Option Pos → Option ℚ → ℚ → ℚ
  | [], _, _, total => total
  | pos :: rest, none, ss, total => flight_loop rest (some pos) ss total
  | pos :: rest, some last, ss, total =>
    let td := pos.time - last.time
    if dist_lt_100 last pos then
      match ss with
      | none => flight_loop rest (some pos) (some last.time) (total + td)
      | some s0 =>
        if pos.time - s0 > 900 then flight_loop rest (some last) (some s0) total
        else flight_loop rest (some pos) (some s0) (total + td)
    else flight_loop rest (some pos) none (total + td)

/-- Total flight seconds of one trace: sort, then run the loop. -/
def flight_seconds (positions : List Pos) : ℚ :=
  flight_loop (sort_by_time positions) none none 0

/-- Source `calculate_actual_flight_hours`: for every traced identity that
exists in `pilot_missions` and has a non-empty trace, overwrite
`flight_minutes` with `int(total_flight_time / 60)` (the total is
non-negative, so `int` truncation is the floor). -/
def calculate_actual_flight_hours (pm : PM) (pp : PP) : PM :=
  pp.foldl (fun acc e =>
    if (lookup_rec acc e.1).isNone then acc
    else if e.2.isEmpty then acc
    else set_existing e.1
      (fun r => { r with flight_minutes := ((flight_seconds e.2) / 60).floor.toNat })
      acc) pm

/-! ### Aggregator / Finalizer (src/backend/xml_parser.py,
`finalize_pilot_data`) -/

/-- Effect of `validate_numeric_value(v, f, min_val=0, max_val=10000)` on a
counter in `finalize_pilot_data`: out-of-range values are reset to 0.  The
counters are naturals, so only the upper bound can fire. -/
def cap_numeric (n : Nat) : Nat :=
  if n > 10000 then 0 else n

/-- The numeric-field validation pass of `finalize_pilot_data`, over
exactly the fields in its `numeric_fields` list. -/
def cap_rec (r : PilotRec) : PilotRec :=
  { r with
    aa_kills := cap_numeric r.aa_kills, ag_kills := cap_numeric r.ag_kills,
    frat_kills := cap_numeric r.frat_kills, rtb := cap_numeric r.rtb,
    ejections := cap_numeric r.ejections, deaths := cap_numeric r.deaths,
    flight_minutes := cap_numeric r.flight_minutes }

/-- The string-field validation and sanitization pass of
`finalize_pilot_data`. -/
def fix_strings_rec (r : PilotRec) : PilotRec :=
  let m := if validate_mission_name r.mission then r.mission else "Unknown Mission"
  let a := if validate_aircraft_name r.aircraft then r.aircraft else "Unknown"
  let p := if validate_platform r.platform then r.platform else "DCS"
  { r with mission := sanitize_string m 200, aircraft := sanitize_string a 200,
           platform := sanitize_string p 200 }

/-- Decimal digit characters for the formatted kill/death value. -/
def dig_char : Nat → Char
  | 0 => '0' | 1 => '1' | 2 => '2' | 3 => '3' | 4 => '4'
  | 5 => '5' | 6 => '6' | 7 => '7' | 8 => '8' | _ => '9'

/-- Most-significant-first decimal digits, with fuel (the value itself
suffices, since `n / 10 < n` for positive `n`). -/
def nat_digits : Nat → Nat → List Char → List Char
  | 0, _, acc => acc
  | fuel + 1, n, acc =>
    if n = 0 then acc else nat_digits fuel (n / 10) (dig_char (n % 10) :: acc)

/-- Decimal representation of a natural number. -/
def nat_repr (n : Nat) : List Char :=
  if n = 0 then ['0'] else nat_digits (n + 1) n []

/-- Hundredths of `k / d` rounded half-to-even (`d > 0`), modelling the
rounding of Python's `f"{k/d:.2f}"` at the exact-rational level. -/
def round_hundredths (k d : Nat) : Nat :=
  let a := 100 * k
  let q := a / d
  let r := a % d
  if 2 * r > d then q + 1
  else if 2 * r < d then q
  else if q % 2 == 0 then q else q + 1

/-- The two-decimal formatted kill/death value `f"{k/d:.2f}"` for
`d > 0`. -/
def format_kd (k d : Nat) : String :=
  let h := round_hundredths k d
  String.mk (nat_repr (h / 100) ++ '.' :: [dig_char ((h % 100) / 10), dig_char (h % 100 % 10)])

/-- Per-record body of `finalize_pilot_data`: validation passes, the
activity filter, then the derived `total_kills` and `kd_ratio` fields.
Returns `none` when the record is dropped. -/
def finalize_rec (r0 : PilotRec) : Option PilotRec :=
  let r := fix_strings_rec (cap_rec r0)
  let activity := r.aa_kills + r.ag_kills + r.frat_kills + r.rtb + r.kia
  if activity > 0 || r.flight_minutes > 0 then
    let total := r.aa_kills + r.ag_kills
    let kd :=
      if r.deaths = 0 then (if total > 0 then "∞" else "N/A")
      else format_kd total r.deaths
    some { r with total_kills := total, kd := kd }
  else none

/-- Source `finalize_pilot_data` over the accumulator map. -/
def finalize_pilot_data (pm : PM) : PM :=
  pm.filterMap (fun e => (finalize_rec e.2).map (fun r => (e.1, r)))

/-! ### Pipeline and Mission Deduplicator (src/backend/xml_parser.py,
`parse_tacview_xml`, `parse_xml`, `is_mission_already_processed`,
`mark_mission_as_processed`) -/

/-- The dedup ledger key `f"{mission_name}_{mission_date}"`. -/
def mission_key (name date : String) : String :=
  name ++ "_" ++ date

/-- Source `is_mission_already_processed`: exact key membership in the
ledger (modelled as the list of keys, newest first). -/
def is_mission_already_processed (st : List String) (name date : String) : Bool :=
  st.contains (mission_key name date)

/-- Source `mark_mission_as_processed`: insert the key and cap the ledger
at the 100 newest entries. -/
def mark_mission_as_processed (st : List String) (name date : String) : List String :=
  let st' := mission_key name date :: st
  if st'.length > 100 then st'.take 100 else st'

/-- A structurally parsed document: the mission metadata produced by the
extraction helpers (`extract_mission_name`, `extract_mission_date`,
`extract_mission_duration_safe`, `detect_platform`) and the `Events`
section (`none` when the section is absent). -/
structure Doc where
  missionName : String
  missionDate : String
  durationSec : Nat
  platformTag : String
  events : Option (List Event)
deriving Repr

/-- Result of `parse_tacview_xml`: either the duplicate short-circuit dict
or the finalized pilot-data mapping. -/
inductive TResult where
  | dup (name date : String)
  | data (pm : PM)
deriving DecidableEq, Repr

/-- Source `parse_tacview_xml`, with the dedup ledger threaded explicitly:
duplicate check first, then the event pass, the flight-hour pass, the
ledger mark, and finalization.  A document without an `Events` section
returns an empty mapping without marking the ledger. -/
def parse_tacview_xml (cfg : Config) (doc : Doc) (st : List String) :
    TResult × List String :=
  if is_mission_already_processed st doc.missionName doc.missionDate then
    (.dup doc.missionName doc.missionDate, st)
  else
    match doc.events with
    | none => (.data [], st)
    | some evs =>
      let dflt := default_rec doc.missionDate doc.missionName doc.durationSec doc.platformTag
      let s := evs.foldl (fun s ev => process_event cfg dflt ev s) (([] : PM), ([] : PP))
      let pm := calculate_actual_flight_hours s.1 s.2
      (.data (finalize_pilot_data pm),
       mark_mission_as_processed st doc.missionName doc.missionDate)

/-- The error taxonomy of `error_handling.ErrorCodes` used by `parse_xml`. -/
inductive APIErr where
  | fileNotFound
  | fileInvalidType
  | xmlParseError
  | dataProcessingError
deriving DecidableEq, Repr

/-- The success payload of `parse_xml`. -/
structure ParseOk where
  success : Bool
  duplicate : Bool
  pilotsCount : Nat
  pilotData : PM
deriving DecidableEq, Repr

/-- Source `parse_xml` (the entry point), past the file-system checks: the
duplicate short-circuit success, the `APIError` raised on an empty
mapping, and the normal success payload. -/
def parse_xml (cfg : Config) (doc : Doc) (st : List String) :
    Except APIErr ParseOk × List String :=
  let r := parse_tacview_xml cfg doc st
  match r.1 with
  | .dup _ _ =>
    (.ok { success := true, duplicate := true, pilotsCount := 0, pilotData := [] }, r.2)
  | .data pm =>
    if pm.isEmpty then (.error .dataProcessingError, r.2)
    else (.ok { success := true, duplicate := false, pilotsCount := pm.length,
                pilotData := pm }, r.2)

/-! ### Shared lemmas -/

/-- Looking up the updated key yields the mutated record (with the
`defaultdict` factory value as the base when the key was absent). -/
theorem lookup_rec_update_self (dflt : PilotRec) (f : PilotRec → PilotRec)
    (k : String) (pm : PM) :
    lookup_rec (update_rec dflt k f pm) k = some (f ((lookup_rec pm k).getD dflt)) := by
  induction pm with
  | nil => simp [update_rec, lookup_rec, List.find?]
  | cons e t ih =>
    by_cases h : (e.1 == k) = true
    · simp [update_rec, lookup_rec, List.find?, h]
    · simp only [Bool.not_eq_true] at h
      simp only [update_rec, h, Bool.false_eq_true, if_false]
      simpa [lookup_rec, List.find?, h] using ih

/-- Looking up a different key is unaffected by an update. -/
theorem lookup_rec_update_ne (dflt : PilotRec) (f : PilotRec → PilotRec)
    (k k' : String) (pm : PM) (hne : (k' == k) = false) :
    lookup_rec (update_rec dflt k f pm) k' = lookup_rec pm k' := by
  have hne' : (k == k') = false := by
    rw [beq_eq_false_iff_ne] at hne ⊢
    exact fun e => hne e.symm
  induction pm with
  | nil =>
    simp [update_rec, lookup_rec, List.find?, hne']
  | cons e t ih =>
    by_cases h : (e.1 == k) = true
    · have hek : e.1 = k := by simpa [beq_iff_eq] using h
      have : (e.1 == k') = false := by rw [hek]; exact hne'
      simp [update_rec, lookup_rec, List.find?, h, this]
    · simp only [Bool.not_eq_true] at h
      simp only [update_rec, h, Bool.false_eq_true, if_false]
      by_cases h' : (e.1 == k') = true
      · simp [lookup_rec, List.find?, h']
      · simp only [Bool.not_eq_true] at h'
        simpa [lookup_rec, List.find?, h'] using ih

/-- A counter projection that the mutator preserves is unchanged, at every
key, by an `update_rec`. -/
theorem getD_update_counter (dflt : PilotRec) (f : PilotRec → PilotRec)
    (k k' : String) (pm : PM) (g : PilotRec → Nat) (hf : ∀ r, g (f r) = g r) :
    g ((lookup_rec (update_rec dflt k f pm) k').getD dflt) =
      g ((lookup_rec pm k').getD dflt) := by
  by_cases h : (k' == k) = true
  · have : k' = k := by simpa [beq_iff_eq] using h
    subst this
    rw [lookup_rec_update_self]
    cases lookup_rec pm k' <;> simp [hf]
  · rw [lookup_rec_update_ne]
    simpa using h

/-- The primary-side updates of an accepted event never change any of the
three kill counters, at any key. -/
theorem kill_counters_record_primary (dflt : PilotRec) (nick pilot aircraft : String)
    (ev : Event) (st : PM × PP) (k : String) (g : PilotRec → Nat)
    (hg1 : ∀ r ns, g { r with nicknames := ns } = g r)
    (hg2 : ∀ r a, g { r with aircraft := a } = g r) :
    g ((lookup_rec (record_primary dflt nick pilot aircraft ev st).1 k).getD dflt) =
      g ((lookup_rec st.1 k).getD dflt) := by
  have hf1 : ∀ r : PilotRec,
      g (if r.nicknames.contains pilot then r
         else { r with nicknames := r.nicknames ++ [pilot] }) = g r := by
    intro r
    by_cases h : pilot ∈ r.nicknames
    · simp [h]
    · simp [h, hg1]
  unfold record_primary
  rw [getD_update_counter _ _ _ _ _ g (fun r => hg2 r aircraft),
      getD_update_counter _ _ _ _ _ g hf1]

/-- Looking up through `set_existing` maps the mutator over the old value. -/
theorem lookup_rec_set_existing (k : String) (f : PilotRec → PilotRec) (pm : PM) :
    lookup_rec (set_existing k f pm) k = (lookup_rec pm k).map f := by
  induction pm with
  | nil => simp [set_existing, lookup_rec, List.find?]
  | cons e t ih =>
    by_cases h : (e.1 == k) = true
    · simp [set_existing, lookup_rec, List.find?, h]
    · simp only [Bool.not_eq_true] at h
      simp only [set_existing, h, Bool.false_eq_true, if_false]
      simpa [lookup_rec, List.find?, h] using ih

/-- No decimal digit character is the letter of the "N/A" sentinel. -/
theorem dig_char_ne (m : Nat) : dig_char m ≠ 'N' ∧ dig_char m ≠ '∞' := by
  unfold dig_char
  split <;> exact ⟨by decide, by decide⟩

/-- The digit-pushing loop produces a digit-headed list whenever the
accumulator already is one or there is a digit to push. -/
theorem nat_digits_head (fuel : Nat) : ∀ (n : Nat) (acc : List Char),
    (∃ m cs, acc = dig_char m :: cs) ∨ (n ≠ 0 ∧ fuel ≠ 0) →
    ∃ m cs, nat_digits fuel n acc = dig_char m :: cs := by
  induction fuel with
  | zero =>
    intro n acc h
    rcases h with h | ⟨_, hf⟩
    · simpa [nat_digits] using h
    · exact absurd rfl hf
  | succ fuel ih =>
    intro n acc h
    by_cases hn : n = 0
    · rcases h with h | ⟨hn', _⟩
      · simpa [nat_digits, hn] using h
      · exact absurd hn hn'
    · simp only [nat_digits, hn, if_false]
      exact ih (n / 10) _ (Or.inl ⟨n % 10, acc, rfl⟩)

/-- The decimal representation of a natural starts with a digit. -/
theorem nat_repr_head (n : Nat) : ∃ m cs, nat_repr n = dig_char m :: cs := by
  by_cases hn : n = 0
  · exact ⟨0, [], by simp [nat_repr, hn, dig_char]⟩
  · simp only [nat_repr, hn, if_false]
    exact nat_digits_head (n + 1) n [] (Or.inr ⟨hn, Nat.succ_ne_zero n⟩)

/-- The formatted kill/death value is never one of the two sentinels. -/
theorem format_kd_ne_sentinels (k d : Nat) :
    format_kd k d ≠ "N/A" ∧ format_kd k d ≠ "∞" := by
  obtain ⟨m, cs, hm⟩ := nat_repr_head (round_hundredths k d / 100)
  constructor
  · intro h
    have hdata : (format_kd k d).data = "N/A".data := by rw [h]
    simp only [format_kd, hm] at hdata
    have : dig_char m = 'N' := by
      simpa using congrArg (fun l => l.headD ' ') hdata
    exact (dig_char_ne m).1 this
  · intro h
    have hdata : (format_kd k d).data = "∞".data := by rw [h]
    simp only [format_kd, hm] at hdata
    have : dig_char m = '∞' := by
      simpa using congrArg (fun l => l.headD ' ') hdata
    exact (dig_char_ne m).2 this

/-- Batteries' executable rational floor agrees with Mathlib's floor. -/
theorem rat_floor_eq_int_floor (q : ℚ) : q.floor = ⌊q⌋ := by
  rw [Rat.floor_def', ← Rat.floor_def]

/-- Marking a mission always leaves its key in the (capped) ledger. -/
theorem contains_mark_mission (st : List String) (name date : String) :
    (mark_mission_as_processed st name date).contains (mission_key name date) = true := by
  unfold mark_mission_as_processed
  dsimp only
  split
  · rw [show (100 : Nat) = 99 + 1 from rfl, List.take_succ_cons]
    simp
  · simp

/-- Entry-point behaviour on a duplicate result of the inner parse. -/
theorem parse_xml_dup (cfg : Config) (doc : Doc) (st st2 : List String) (n d : String)
    (h : parse_tacview_xml cfg doc st = (.dup n d, st2)) :
    parse_xml cfg doc st =
      (.ok { success := true, duplicate := true, pilotsCount := 0, pilotData := [] },
       st2) := by
  unfold parse_xml
  rw [h]

/-- Entry-point behaviour on an empty mapping from the inner parse. -/
theorem parse_xml_empty (cfg : Config) (doc : Doc) (st st2 : List String)
    (h : parse_tacview_xml cfg doc st = (.data [], st2)) :
    parse_xml cfg doc st = (.error .dataProcessingError, st2) := by
  unfold parse_xml
  rw [h]
  rfl

/-! ### Claim theorems -/

/-- Claim C2 (code bug): the combatant classifier in fact ACCEPTS the raw
label "Static Armor RED-B-7-1" with aircraft label "Tank" for every group
label, when no squadron roster is configured and the label is not on the
known-player allow-list.  The aircraft gate uses bidirectional substring
overlap, and "tank" is a substring of the allow-list entry
"DCS: A-10C II Tank Killer", so the static armor unit passes the aircraft
gate and the empty roster accepts it — contradicting the claim, the spec
scenario, and the repository's own `test_filter.py` expected results
("Static Armor* -> AI"). -/
theorem claim_C2 : ∀ group : String,
    is_player_client [] [] "Static Armor RED-B-7-1" "Tank" group = true :=
  fun _ => rfl

/-- Claim C3 (code bug): on the trace [(0,0,t=0), (0,0,t=1000)] the
estimator credits the FULL 1000 seconds (16 whole minutes), not ≈900
seconds (15 minutes): the first stationary interval only starts the
stationary timer (`stationary_start is None` branch) and is still
accumulated, so the over-threshold exclusion never fires on a two-sample
stationary trace, contradicting the claim and the function's own
documentation ("excluding stationary time (>15 minutes)"). -/
theorem claim_C3 :
    flight_seconds [⟨0, 0, 0⟩, ⟨0, 0, 1000⟩] = 1000 ∧
    (lookup_rec (calculate_actual_flight_hours
        [("p", default_rec "d" "m" 0 "DCS")]
        [("p", [⟨0, 0, 0⟩, ⟨0, 0, 1000⟩])]) "p").map (fun r => r.flight_minutes) =
      some 16 ∧
    (16 : Nat) ≠ 15 := by
  have h1 : flight_seconds [(⟨0, 0, 0⟩ : Pos), ⟨0, 0, 1000⟩] = 1000 := by
    norm_num [flight_seconds, sort_by_time, insert_pos, flight_loop, dist_lt_100]
  have h2 : ((1000 : ℚ) / 60).floor.toNat = 16 := by
    rw [rat_floor_eq_int_floor, show ⌊(1000 : ℚ) / 60⌋ = 16 by norm_num]
    rfl
  refine ⟨h1, ?_, by decide⟩
  simp [calculate_actual_flight_hours, lookup_rec, List.find?, set_existing, h1, h2,
    default_rec]

/-- Claim C4: `resolve_fuzzy_nickname` returns the first identity, in the
alias table's insertion order, all of whose fragments are substrings of the
normalized label (strip non-word characters, lower-case), and the
normalized label itself when no identity fully matches.  Stated as an
equality with the `List.find?`-based formula; totality and determinism are
inherent in the function being a Lean `def`. -/
theorem claim_C4 (raw : String) (table : List (String × List String)) :
    resolve_fuzzy_nickname raw table =
      ((table.find? (fun e =>
          e.2.all (fun f => substr_in f.data (normalize_name raw).data))).map
        Prod.fst).getD (normalize_name raw) := by
  induction table with
  | nil => rfl
  | cons e t ih =>
    obtain ⟨nick, frags⟩ := e
    by_cases h : frags.all (fun f => substr_in f.data (normalize_name raw).data) = true
    · simp [resolve_fuzzy_nickname, List.find?, h]
    · simp only [Bool.not_eq_true] at h
      simp [resolve_fuzzy_nickname, List.find?, h, ih]

/-- Claim C7 (corrected): the estimator leaves `flight_minutes` unchanged
only for a ZERO-sample trace; a one-sample trace overwrites the seeded
value with 0 (the loop accumulates nothing, and the overwrite is
unconditional once the trace is non-empty). -/
theorem claim_C7 (pm : PM) (k : String) :
    calculate_actual_flight_hours pm [(k, [])] = pm ∧
    (∀ p : Pos, lookup_rec (calculate_actual_flight_hours pm [(k, [p])]) k =
      (lookup_rec pm k).map (fun r => { r with flight_minutes := 0 })) := by
  constructor
  · unfold calculate_actual_flight_hours
    cases h : (lookup_rec pm k).isNone <;> simp [h]
  · intro p
    unfold calculate_actual_flight_hours
    cases h : (lookup_rec pm k).isNone with
    | true =>
      rw [Option.isNone_iff_eq_none] at h
      simp [h]
    | false =>
      have h0 : ((flight_seconds [p]) / 60).floor.toNat = 0 := by
        rw [show flight_seconds [p] = 0 from rfl, rat_floor_eq_int_floor,
          show ⌊(0 : ℚ) / 60⌋ = 0 by norm_num]
        rfl
      simp only [List.foldl, h, Bool.false_eq_true, if_false, List.isEmpty_cons]
      rw [lookup_rec_set_existing]
      simp [h0]

/-- Claim C7 counterexample: a single-sample trace for a pilot seeded with
45 flight minutes produces 0 flight minutes, not the seeded 45 — the
original claim ("leaves the previously seeded value unchanged for fewer
than 2 samples") is false for exactly-one-sample traces. -/
theorem claim_C7_counterexample :
    (lookup_rec (calculate_actual_flight_hours
        [("bob", default_rec "d" "m" 2700 "DCS")]
        [("bob", [⟨0, 0, 5⟩])]) "bob").map (fun r => r.flight_minutes) = some 0 ∧
    (default_rec "d" "m" 2700 "DCS").flight_minutes = 45 := by
  have h0 : ((flight_seconds [(⟨0, 0, 5⟩ : Pos)]) / 60).floor.toNat = 0 := by
    rw [show flight_seconds [(⟨0, 0, 5⟩ : Pos)] = 0 from rfl, rat_floor_eq_int_floor,
      show ⌊(0 : ℚ) / 60⌋ = 0 by norm_num]
    rfl
  refine ⟨?_, by decide⟩
  simp [calculate_actual_flight_hours, lookup_rec, List.find?, set_existing, h0]

/-- Claim C8 (corrected): the classifier's result never depends on the
group label at all — the `group` parameter is accepted but unused, so no
"AI-like group" rule exists; acceptance is decided solely by the
known-player list, the aircraft allow-list and the roster. -/
theorem claim_C8 : ∀ (profiles : List Profile) (callsigns : List String)
    (pilotName aircraftName g g' : String),
    is_player_client profiles callsigns pilotName aircraftName g =
      is_player_client profiles callsigns pilotName aircraftName g' :=
  fun _ _ _ _ _ _ => rfl

/-- Claim C8 counterexample: a pilot on no allow-list with an AI-like group
label ("Enemy Hostile Bot Computer AI Group") is ACCEPTED by the
classifier (the aircraft "F-16C" is allow-listed and there is no roster),
although the claim requires rejection whenever the group label matches an
AI-like pattern. -/
theorem claim_C8_counterexample :
    is_player_client [] [] "Bob" "F-16C" "Enemy Hostile Bot Computer AI Group" = true := by
  decide

/-- Claim C10: in a destroyed-with-secondary event the attacker's
combatant check receives the PRIMARY (victim) entity's aircraft and group
labels.  First conjunct: the result of `process_event` is invariant under
arbitrary changes to the secondary's own aircraft and group labels.
Remaining conjuncts: two concrete kill events that differ only in the
victim's aircraft ("F-16C" vs "Boat", victim accepted via the known-player
list in both) — the attacker "Bob" is credited an air kill in the first
and rejected outright in the second, so the attacker's acceptance is
decided by the victim's aircraft. -/
theorem claim_C10 :
    (∀ (cfg : Config) (dflt : PilotRec) (a : Option String) (po : Option Entity)
      (sp sn sg sty sc : String) (lo : Option (ℚ × ℚ)) (t : Option ℚ)
      (st : PM × PP) (sn' sg' : String),
      process_event cfg dflt ⟨a, po, some ⟨sp, sn, sg, sty, sc⟩, lo, t⟩ st =
        process_event cfg dflt ⟨a, po, some ⟨sp, sn', sg', sty, sc⟩, lo, t⟩ st) ∧
    (lookup_rec (process_event ⟨[⟨"Vic", []⟩], [], []⟩ (default_rec "d" "m" 2700 "DCS")
        ⟨some "HasBeenDestroyed", some ⟨"Vic", "F-16C", "", "", "Blue"⟩,
         some ⟨"Bob", "Unknown", "", "", "Red"⟩, none, none⟩ ([], [])).1 "bob").map
      (fun r => r.aa_kills) = some 1 ∧
    lookup_rec (process_event ⟨[⟨"Vic", []⟩], [], []⟩ (default_rec "d" "m" 2700 "DCS")
        ⟨some "HasBeenDestroyed", some ⟨"Vic", "Boat", "", "", "Blue"⟩,
         some ⟨"Bob", "Unknown", "", "", "Red"⟩, none, none⟩ ([], [])).1 "bob" = none := by
  refine ⟨fun cfg dflt a po sp sn sg sty sc lo t st sn' sg' => ?_, by decide, by decide⟩
  cases po with
  | none => rfl
  | some p => rfl

/-- Claim C1 counterexample: a destroyed event whose attacker label "Bob"
is non-empty, not "Unknown", and classified as a combatant (he is on the
known-player list, so `is_player_client` accepts him under the very
argument values this event supplies), but whose victim "Victim" is NOT
classified as a combatant (aircraft "Boat" fails the allow-list and there
is no profile for him).  The claim requires exactly one of Bob's kill
counters to increment regardless of the victim's classification; the code
returns the state unchanged — no accumulator is even created — because the
victim's combatant gate aborts the whole event before attribution. -/
theorem claim_C1_counterexample :
    process_event ⟨[⟨"Bob", []⟩], [], []⟩ (default_rec "d" "m" 2700 "DCS")
      ⟨some "HasBeenDestroyed", some ⟨"Victim", "Boat", "", "Ship", "Blue"⟩,
       some ⟨"Bob", "Unknown", "", "", "Red"⟩, none, none⟩ ([], []) = ([], []) ∧
    is_player_client [⟨"Bob", []⟩] [] "Bob" "Boat" "" = true ∧
    is_player_client [⟨"Bob", []⟩] [] "Victim" "Boat" "" = false ∧
    py_strip "Bob" = "Bob" ∧ lower_str "Bob" ≠ "unknown" := by
  refine ⟨by decide, by decide, by decide, by decide, by decide⟩

/-- On a destroyed-with-secondary event whose attacker passes the gate,
`apply_action` increments exactly one kill counter of the attacker's
resolved nickname, selected by the coalition/ground-type priority. -/
theorem apply_action_destroyed (cfg : Config) (dflt : PilotRec) (ev : Event)
    (p s : Entity) (pil air nick : String) (st : PM × PP)
    (ha : ev.action = some "HasBeenDestroyed")
    (hs : ev.secondary = some s)
    (h5 : (!(py_strip s.pilot).data.isEmpty && lower_str (py_strip s.pilot) != "unknown" &&
        is_player_client cfg.profiles cfg.callsigns (py_strip s.pilot) air p.group) = true) :
    (apply_action cfg dflt ev p pil air nick st).1 =
      update_rec dflt (resolve_fuzzy_nickname (py_strip s.pilot) cfg.fragments)
        (fun r =>
          if p.coalition == s.coalition && !p.coalition.data.isEmpty then
            { r with frat_kills := r.frat_kills + 1 }
          else if ground_types.contains p.typ then
            { r with ag_kills := r.ag_kills + 1 }
          else { r with aa_kills := r.aa_kills + 1 }) st.1 := by
  unfold apply_action
  rw [ha, hs]
  by_cases hc : (p.coalition == s.coalition && !p.coalition.data.isEmpty) = true
  · simp [h5, hc]
  · simp only [Bool.not_eq_true] at hc
    by_cases hg : p.typ ∈ ground_types
    · simp [h5, hc, hg]
    · simp [h5, hc, hg]

/-- Claim C1 (corrected): kill attribution happens only when the primary
(victim) side also passes every gate — non-empty, non-"Unknown", valid and
classified-as-combatant label with a valid resolved nickname — not
"regardless of whether the primary is itself classified as a combatant".
Under those gates, together with the attacker gate (attacker label
non-empty, not "unknown", classified as a combatant using the primary's
aircraft and group), exactly one of the attacker's three kill counters
increments, selected by: friendly-fire when the two coalition tags are
equal and non-empty, else ground when the destroyed type tag is in the
fixed ground-target set, else air. -/
theorem claim_C1 (cfg : Config) (dflt : PilotRec) (ev : Event) (p s : Entity)
    (pm : PM) (pp : PP)
    (hp : ev.primary = some p)
    (hs : ev.secondary = some s)
    (ha : ev.action = some "HasBeenDestroyed")
    (h1 : ((py_strip p.pilot).data.isEmpty || lower_str (py_strip p.pilot) == "unknown") = false)
    (h2 : validate_pilot_name (py_strip p.pilot) = true)
    (h3 : is_player_client cfg.profiles cfg.callsigns (sanitize_string (py_strip p.pilot) 100)
        (sanitize_string (if validate_aircraft_name p.name then p.name else "Unknown") 100)
        p.group = true)
    (h4 : validate_pilot_name
        (resolve_fuzzy_nickname (sanitize_string (py_strip p.pilot) 100) cfg.fragments) = true)
    (h5 : (!(py_strip s.pilot).data.isEmpty && lower_str (py_strip s.pilot) != "unknown" &&
        is_player_client cfg.profiles cfg.callsigns (py_strip s.pilot)
          (sanitize_string (if validate_aircraft_name p.name then p.name else "Unknown") 100)
          p.group) = true) :
    ((p.coalition == s.coalition && !p.coalition.data.isEmpty) = true →
      ((lookup_rec (process_event cfg dflt ev (pm, pp)).1
          (resolve_fuzzy_nickname (py_strip s.pilot) cfg.fragments)).getD dflt).frat_kills =
        ((lookup_rec pm (resolve_fuzzy_nickname (py_strip s.pilot) cfg.fragments)).getD
          dflt).frat_kills + 1 ∧
      ((lookup_rec (process_event cfg dflt ev (pm, pp)).1
          (resolve_fuzzy_nickname (py_strip s.pilot) cfg.fragments)).getD dflt).ag_kills =
        ((lookup_rec pm (resolve_fuzzy_nickname (py_strip s.pilot) cfg.fragments)).getD
          dflt).ag_kills ∧
      ((lookup_rec (process_event cfg dflt ev (pm, pp)).1
          (resolve_fuzzy_nickname (py_strip s.pilot) cfg.fragments)).getD dflt).aa_kills =
        ((lookup_rec pm (resolve_fuzzy_nickname (py_strip s.pilot) cfg.fragments)).getD
          dflt).aa_kills) ∧
    ((p.coalition == s.coalition && !p.coalition.data.isEmpty) = false →
      (ground_types.contains p.typ = true →
        ((lookup_rec (process_event cfg dflt ev (pm, pp)).1
            (resolve_fuzzy_nickname (py_strip s.pilot) cfg.fragments)).getD dflt).frat_kills =
          ((lookup_rec pm (resolve_fuzzy_nickname (py_strip s.pilot) cfg.fragments)).getD
            dflt).frat_kills ∧
        ((lookup_rec (process_event cfg dflt ev (pm, pp)).1
            (resolve_fuzzy_nickname (py_strip s.pilot) cfg.fragments)).getD dflt).ag_kills =
          ((lookup_rec pm (resolve_fuzzy_nickname (py_strip s.pilot) cfg.fragments)).getD
            dflt).ag_kills + 1 ∧
        ((lookup_rec (process_event cfg dflt ev (pm, pp)).1
            (resolve_fuzzy_nickname (py_strip s.pilot) cfg.fragments)).getD dflt).aa_kills =
          ((lookup_rec pm (resolve_fuzzy_nickname (py_strip s.pilot) cfg.fragments)).getD
            dflt).aa_kills) ∧
      (ground_types.contains p.typ = false →
        ((lookup_rec (process_event cfg dflt ev (pm, pp)).1
            (resolve_fuzzy_nickname (py_strip s.pilot) cfg.fragments)).getD dflt).frat_kills =
          ((lookup_rec pm (resolve_fuzzy_nickname (py_strip s.pilot) cfg.fragments)).getD
            dflt).frat_kills ∧
        ((lookup_rec (process_event cfg dflt ev (pm, pp)).1
            (resolve_fuzzy_nickname (py_strip s.pilot) cfg.fragments)).getD dflt).ag_kills =
          ((lookup_rec pm (resolve_fuzzy_nickname (py_strip s.pilot) cfg.fragments)).getD
            dflt).ag_kills ∧
        ((lookup_rec (process_event cfg dflt ev (pm, pp)).1
            (resolve_fuzzy_nickname (py_strip s.pilot) cfg.fragments)).getD dflt).aa_kills =
          ((lookup_rec pm (resolve_fuzzy_nickname (py_strip s.pilot) cfg.fragments)).getD
            dflt).aa_kills + 1)) := by
  have hpe : process_event cfg dflt ev (pm, pp) =
      apply_action cfg dflt ev p (sanitize_string (py_strip p.pilot) 100)
        (sanitize_string (if validate_aircraft_name p.name then p.name else "Unknown") 100)
        (resolve_fuzzy_nickname (sanitize_string (py_strip p.pilot) 100) cfg.fragments)
        (record_primary dflt
          (resolve_fuzzy_nickname (sanitize_string (py_strip p.pilot) 100) cfg.fragments)
          (sanitize_string (py_strip p.pilot) 100)
          (sanitize_string (if validate_aircraft_name p.name then p.name else "Unknown") 100)
          ev (pm, pp)) := by
    unfold process_event
    rw [hp]
    simp [h1, h2, h3, h4]
  have hout : (process_event cfg dflt ev (pm, pp)).1 =
      update_rec dflt (resolve_fuzzy_nickname (py_strip s.pilot) cfg.fragments)
        (fun r =>
          if p.coalition == s.coalition && !p.coalition.data.isEmpty then
            { r with frat_kills := r.frat_kills + 1 }
          else if ground_types.contains p.typ then
            { r with ag_kills := r.ag_kills + 1 }
          else { r with aa_kills := r.aa_kills + 1 })
        (record_primary dflt
          (resolve_fuzzy_nickname (sanitize_string (py_strip p.pilot) 100) cfg.fragments)
          (sanitize_string (py_strip p.pilot) 100)
          (sanitize_string (if validate_aircraft_name p.name then p.name else "Unknown") 100)
          ev (pm, pp)).1 := by
    rw [hpe, apply_action_destroyed cfg dflt ev p s _ _ _ _ ha hs h5]
  have hef : ((lookup_rec (record_primary dflt
      (resolve_fuzzy_nickname (sanitize_string (py_strip p.pilot) 100) cfg.fragments)
      (sanitize_string (py_strip p.pilot) 100)
      (sanitize_string (if validate_aircraft_name p.name then p.name else "Unknown") 100)
      ev (pm, pp)).1 (resolve_fuzzy_nickname (py_strip s.pilot) cfg.fragments)).getD
        dflt).frat_kills =
      ((lookup_rec pm (resolve_fuzzy_nickname (py_strip s.pilot) cfg.fragments)).getD
        dflt).frat_kills :=
    kill_counters_record_primary _ _ _ _ _ _ _ (fun r => r.frat_kills)
      (fun _ _ => rfl) (fun _ _ => rfl)
  have heg : ((lookup_rec (record_primary dflt
      (resolve_fuzzy_nickname (sanitize_string (py_strip p.pilot) 100) cfg.fragments)
      (sanitize_string (py_strip p.pilot) 100)
      (sanitize_string (if validate_aircraft_name p.name then p.name else "Unknown") 100)
      ev (pm, pp)).1 (resolve_fuzzy_nickname (py_strip s.pilot) cfg.fragments)).getD
        dflt).ag_kills =
      ((lookup_rec pm (resolve_fuzzy_nickname (py_strip s.pilot) cfg.fragments)).getD
        dflt).ag_kills :=
    kill_counters_record_primary _ _ _ _ _ _ _ (fun r => r.ag_kills)
      (fun _ _ => rfl) (fun _ _ => rfl)
  have hea : ((lookup_rec (record_primary dflt
      (resolve_fuzzy_nickname (sanitize_string (py_strip p.pilot) 100) cfg.fragments)
      (sanitize_string (py_strip p.pilot) 100)
      (sanitize_string (if validate_aircraft_name p.name then p.name else "Unknown") 100)
      ev (pm, pp)).1 (resolve_fuzzy_nickname (py_strip s.pilot) cfg.fragments)).getD
        dflt).aa_kills =
      ((lookup_rec pm (resolve_fuzzy_nickname (py_strip s.pilot) cfg.fragments)).getD
        dflt).aa_kills :=
    kill_counters_record_primary _ _ _ _ _ _ _ (fun r => r.aa_kills)
      (fun _ _ => rfl) (fun _ _ => rfl)
  refine ⟨fun hc => ?_, fun hc => ⟨fun hg => ?_, fun hg => ?_⟩⟩
  · simp [hout, lookup_rec_update_self, hc, hef, heg, hea]
  · have hg' : p.typ ∈ ground_types := by simpa using hg
    simp [hout, lookup_rec_update_self, hc, hg', hef, heg, hea]
  · have hg' : p.typ ∉ ground_types := by simpa using hg
    simp [hout, lookup_rec_update_self, hc, hg', hef, heg, hea]

/-- Claim C1 witness: a concrete friendly-fire kill (victim "Vic" and
attacker "Bob" both on the known-player list, both coalition "Blue"): the
attacker's friendly-fire counter goes from 0 to 1 while the ground and air
counters stay 0. -/
theorem claim_C1_witness :
    ((lookup_rec (process_event ⟨[⟨"Vic", []⟩, ⟨"Bob", []⟩], [], []⟩
        (default_rec "d" "m" 2700 "DCS")
        ⟨some "HasBeenDestroyed", some ⟨"Vic", "Boat", "", "Ship", "Blue"⟩,
         some ⟨"Bob", "Unknown", "", "", "Blue"⟩, none, none⟩ ([], [])).1
        (resolve_fuzzy_nickname (py_strip "Bob") [])).getD
        (default_rec "d" "m" 2700 "DCS")).frat_kills =
      ((lookup_rec ([] : PM) (resolve_fuzzy_nickname (py_strip "Bob") [])).getD
        (default_rec "d" "m" 2700 "DCS")).frat_kills + 1 ∧
    ((lookup_rec (process_event ⟨[⟨"Vic", []⟩, ⟨"Bob", []⟩], [], []⟩
        (default_rec "d" "m" 2700 "DCS")
        ⟨some "HasBeenDestroyed", some ⟨"Vic", "Boat", "", "Ship", "Blue"⟩,
         some ⟨"Bob", "Unknown", "", "", "Blue"⟩, none, none⟩ ([], [])).1
        (resolve_fuzzy_nickname (py_strip "Bob") [])).getD
        (default_rec "d" "m" 2700 "DCS")).ag_kills =
      ((lookup_rec ([] : PM) (resolve_fuzzy_nickname (py_strip "Bob") [])).getD
        (default_rec "d" "m" 2700 "DCS")).ag_kills ∧
    ((lookup_rec (process_event ⟨[⟨"Vic", []⟩, ⟨"Bob", []⟩], [], []⟩
        (default_rec "d" "m" 2700 "DCS")
        ⟨some "HasBeenDestroyed", some ⟨"Vic", "Boat", "", "Ship", "Blue"⟩,
         some ⟨"Bob", "Unknown", "", "", "Blue"⟩, none, none⟩ ([], [])).1
        (resolve_fuzzy_nickname (py_strip "Bob") [])).getD
        (default_rec "d" "m" 2700 "DCS")).aa_kills =
      ((lookup_rec ([] : PM) (resolve_fuzzy_nickname (py_strip "Bob") [])).getD
        (default_rec "d" "m" 2700 "DCS")).aa_kills :=
  (claim_C1 ⟨[⟨"Vic", []⟩, ⟨"Bob", []⟩], [], []⟩ (default_rec "d" "m" 2700 "DCS")
    ⟨some "HasBeenDestroyed", some ⟨"Vic", "Boat", "", "Ship", "Blue"⟩,
     some ⟨"Bob", "Unknown", "", "", "Blue"⟩, none, none⟩
    ⟨"Vic", "Boat", "", "Ship", "Blue"⟩ ⟨"Bob", "Unknown", "", "", "Blue"⟩
    [] [] rfl rfl rfl (by decide) (by decide) (by decide) (by decide) (by decide)).1
    (by decide)

/-- Claim C5: for every document with an events section, running the
pipeline a second time with the same mission name and mission date
short-circuits as a duplicate: the second call returns a success payload
with the duplicate marker, zero pilots and empty pilot data, and leaves
the dedup ledger untouched.  The fingerprint is the exact key
`name ++ "_" ++ date` — plain membership, no fuzzy matching. -/
theorem claim_C5 (cfg : Config) (name date : String) (dur : Nat) (plat : String)
    (evs : List Event) (st : List String) :
    parse_xml cfg ⟨name, date, dur, plat, some evs⟩
        (parse_xml cfg ⟨name, date, dur, plat, some evs⟩ st).2 =
      (.ok { success := true, duplicate := true, pilotsCount := 0, pilotData := [] },
       (parse_xml cfg ⟨name, date, dur, plat, some evs⟩ st).2) := by
  have hkey : is_mission_already_processed
      (parse_xml cfg ⟨name, date, dur, plat, some evs⟩ st).2 name date = true := by
    unfold parse_xml parse_tacview_xml
    by_cases h : is_mission_already_processed st name date = true
    · simp [h]
    · simp only [Bool.not_eq_true] at h
      simp only [h, Bool.false_eq_true, if_false]
      split <;>
        simpa [is_mission_already_processed] using contains_mark_mission st name date
  have hdup : parse_tacview_xml cfg ⟨name, date, dur, plat, some evs⟩
      (parse_xml cfg ⟨name, date, dur, plat, some evs⟩ st).2 =
      (.dup name date, (parse_xml cfg ⟨name, date, dur, plat, some evs⟩ st).2) := by
    unfold parse_tacview_xml
    simp [hkey]
  exact parse_xml_dup _ _ _ _ _ _ hdup

/-- Claim C9 counterexample: for a fresh zero-event document the entry
point raises the data-processing error instead of returning an empty
result mapping without error, refuting the claim as stated. -/
theorem claim_C9_counterexample :
    (parse_xml ⟨[], [], []⟩ ⟨"M", "D", 0, "DCS", some []⟩ []).1 =
      .error .dataProcessingError :=
  rfl

/-- Claim C9 (corrected): for a not-yet-processed document whose events
section is present but empty, `parse_tacview_xml` does produce the empty
result mapping without an error (and marks the ledger), but the entry
point `parse_xml` then raises `DATA_PROCESSING_ERROR` on the empty
mapping, so the pipeline as a whole reports an error rather than an empty
success. -/
theorem claim_C9 (cfg : Config) (name date : String) (dur : Nat) (plat : String)
    (st : List String) (h : is_mission_already_processed st name date = false) :
    parse_tacview_xml cfg ⟨name, date, dur, plat, some []⟩ st =
      (.data [], mark_mission_as_processed st name date) ∧
    (parse_xml cfg ⟨name, date, dur, plat, some []⟩ st).1 =
      .error .dataProcessingError := by
  have h1 : parse_tacview_xml cfg ⟨name, date, dur, plat, some []⟩ st =
      (.data [], mark_mission_as_processed st name date) := by
    unfold parse_tacview_xml
    simp [h, calculate_actual_flight_hours, finalize_pilot_data]
  refine ⟨h1, ?_⟩
  rw [parse_xml_empty cfg _ st _ h1]

/-- Claim C9 witness: the corrected claim instantiated at a fresh ledger
and a concrete zero-event document. -/
theorem claim_C9_witness :
    parse_tacview_xml ⟨[], [], []⟩ ⟨"M", "D", 0, "DCS", some []⟩ [] =
      (.data [], mark_mission_as_processed [] "M" "D") ∧
    (parse_xml ⟨[], [], []⟩ ⟨"M", "D", 0, "DCS", some []⟩ []).1 =
      .error .dataProcessingError :=
  claim_C9 ⟨[], [], []⟩ "M" "D" 0 "DCS" [] (by decide)

/-- Claim C6: every record in the finalized output satisfies
`total_kills = aa_kills + ag_kills` (friendly-fire kills are never
included), and `kd_ratio` is "N/A" exactly when both total kills and
deaths are zero, "∞" exactly when there are kills but no deaths, and the
finite two-decimal formatted ratio otherwise. -/
theorem claim_C6 (pm : PM) (k : String) (r : PilotRec)
    (h : (k, r) ∈ finalize_pilot_data pm) :
    r.total_kills = r.aa_kills + r.ag_kills ∧
    (r.kd = "N/A" ↔ (r.total_kills = 0 ∧ r.deaths = 0)) ∧
    (r.kd = "∞" ↔ (0 < r.total_kills ∧ r.deaths = 0)) ∧
    (r.deaths ≠ 0 → r.kd = format_kd r.total_kills r.deaths) := by
  unfold finalize_pilot_data at h
  rw [List.mem_filterMap] at h
  obtain ⟨e, _, he⟩ := h
  cases hfr : finalize_rec e.2 with
  | none => rw [hfr] at he; simp at he
  | some r' =>
    rw [hfr] at he
    simp only [Option.map_some', Option.some.injEq, Prod.mk.injEq] at he
    obtain ⟨-, hrr⟩ := he
    unfold finalize_rec at hfr
    simp only [] at hfr
    split at hfr
    · simp only [Option.some.injEq] at hfr
      rw [← hrr, ← hfr]
      by_cases hd : (fix_strings_rec (cap_rec e.2)).deaths = 0
      · by_cases ht : 0 < (fix_strings_rec (cap_rec e.2)).aa_kills +
            (fix_strings_rec (cap_rec e.2)).ag_kills
        · refine ⟨rfl, ?_, ?_, ?_⟩
          · simp [hd, ht, show ("∞" : String) ≠ "N/A" from by decide]
            omega
          · simp [hd, ht]
          · intro hcon
            simp [hd] at hcon
        · refine ⟨rfl, ?_, ?_, ?_⟩
          · simp [hd, ht]
            omega
          · simp [hd, ht, show ("N/A" : String) ≠ "∞" from by decide]
          · intro hcon
            simp [hd] at hcon
      · refine ⟨rfl, ?_, ?_, ?_⟩
        · simp [hd, (format_kd_ne_sentinels _ _).1]
        · simp [hd, (format_kd_ne_sentinels _ _).2]
        · intro _
          simp [hd]
    · exact absurd hfr (by simp)

/-- Claim C6 witness: a record with 2 air kills, 1 ground kill, 7
friendly-fire kills and no deaths finalizes to total 3 (friendly fire
excluded) with the "∞" sentinel satisfying all three conditions. -/
theorem claim_C6_witness :
    ({ default_rec "d" "m" 2700 "DCS" with
        aa_kills := 2, ag_kills := 1, frat_kills := 7,
        total_kills := 3, kd := "∞" } : PilotRec).total_kills =
      ({ default_rec "d" "m" 2700 "DCS" with
        aa_kills := 2, ag_kills := 1, frat_kills := 7,
        total_kills := 3, kd := "∞" } : PilotRec).aa_kills +
      ({ default_rec "d" "m" 2700 "DCS" with
        aa_kills := 2, ag_kills := 1, frat_kills := 7,
        total_kills := 3, kd := "∞" } : PilotRec).ag_kills ∧
    (({ default_rec "d" "m" 2700 "DCS" with
        aa_kills := 2, ag_kills := 1, frat_kills := 7,
        total_kills := 3, kd := "∞" } : PilotRec).kd = "N/A" ↔
      (({ default_rec "d" "m" 2700 "DCS" with
        aa_kills := 2, ag_kills := 1, frat_kills := 7,
        total_kills := 3, kd := "∞" } : PilotRec).total_kills = 0 ∧
       ({ default_rec "d" "m" 2700 "DCS" with
        aa_kills := 2, ag_kills := 1, frat_kills := 7,
        total_kills := 3, kd := "∞" } : PilotRec).deaths = 0)) ∧
    (({ default_rec "d" "m" 2700 "DCS" with
        aa_kills := 2, ag_kills := 1, frat_kills := 7,
        total_kills := 3, kd := "∞" } : PilotRec).kd = "∞" ↔
      (0 < ({ default_rec "d" "m" 2700 "DCS" with
        aa_kills := 2, ag_kills := 1, frat_kills := 7,
        total_kills := 3, kd := "∞" } : PilotRec).total_kills ∧
       ({ default_rec "d" "m" 2700 "DCS" with
        aa_kills := 2, ag_kills := 1, frat_kills := 7,
        total_kills := 3, kd := "∞" } : PilotRec).deaths = 0)) ∧
    (({ default_rec "d" "m" 2700 "DCS" with
        aa_kills := 2, ag_kills := 1, frat_kills := 7,
        total_kills := 3, kd := "∞" } : PilotRec).deaths ≠ 0 →
      ({ default_rec "d" "m" 2700 "DCS" with
        aa_kills := 2, ag_kills := 1, frat_kills := 7,
        total_kills := 3, kd := "∞" } : PilotRec).kd =
        format_kd ({ default_rec "d" "m" 2700 "DCS" with
          aa_kills := 2, ag_kills := 1, frat_kills := 7,
          total_kills := 3, kd := "∞" } : PilotRec).total_kills
          ({ default_rec "d" "m" 2700 "DCS" with
            aa_kills := 2, ag_kills := 1, frat_kills := 7,
            total_kills := 3, kd := "∞" } : PilotRec).deaths) :=
  claim_C6 [("a", { default_rec "d" "m" 2700 "DCS" with
      aa_kills := 2, ag_kills := 1, frat_kills := 7 })] "a"
    ({ default_rec "d" "m" 2700 "DCS" with
      aa_kills := 2, ag_kills := 1, frat_kills := 7,
      total_kills := 3, kd := "∞" }) (by decide)

end Loggers
